import Mathlib

/-!
Verification of the airfoil-geometry module (`pyvsp/airfoil/parsec.py`).

Modelling conventions
---------------------

* Python floats are modelled by exact arithmetic: parameters and the PARSEC
  linear system live over `ℚ`, geometry (cosine-spaced sampling, surface
  evaluation) lives over `ℝ`.
* The irrational quantities appearing in the PARSEC system are passed as
  explicit symbolic inputs: `s` stands for the square root of the crest
  abscissa (so the source's `x**0.5` is `s` and `x**1.5` is `s^3`, etc.),
  `t` stands for the value `tan(te_alpha - sign * 0.5 * te_beta)` and `r`
  for `sqrt(2 * le_radius)`.  Theorems quantify over these inputs, adding
  the defining constraint (e.g. `s^2 = upper_x`) where a claim needs it.
* `np.linalg.solve` raises `LinAlgError` exactly on a singular matrix and
  otherwise returns the unique solution; it is modelled by `solveLin`,
  which returns `none` exactly when the determinant vanishes.
* The reactive-field collaborator (traitlets) is modelled by its declared
  contract: a write is validated against the declared bounds first (an
  out-of-range value raises and leaves every field untouched); a committed
  write then synchronously runs the observers registered for that field.
  Each `write…` definition below hard-codes the observer list that the
  source registers for that trait.
-/

open Matrix
open Topology

set_option maxRecDepth 8000

/-- Model of `np.linalg.solve`: returns the unique solution of `A ⬝ k = b`
when `A` is invertible, and `none` (the `LinAlgError` case) when `A` is
singular.  The solution is expressed with the adjugate so that the
definition stays computable. -/
def solveLin (A : Matrix (Fin 6) (Fin 6) ℚ) (b : Fin 6 → ℚ) : Option (Fin 6 → ℚ) :=
  if A.det ≠ 0 then some ((A.det⁻¹ • A.adjugate) *ᵥ b) else none

/-- The eleven PARSEC shape parameters together with the sampling density,
mirroring the trait declarations of `ParsecAirfoil` (source lines 88-122).
Angles (`te_alpha`, `te_beta`) are stored as exact values; only their
tangent enters the linear system and that tangent is passed symbolically. -/
structure ParsecParams where
  upper_x : ℚ
  upper_z : ℚ
  upper_c : ℚ
  lower_x : ℚ
  lower_z : ℚ
  lower_c : ℚ
  le_radius : ℚ
  te_z : ℚ
  te_alpha : ℚ
  te_beta : ℚ
  te_thickness : ℚ
  num_points : ℕ
deriving DecidableEq

/-- Crest abscissa selected by `A(upper)` (source line 175):
`upper_x` for the upper surface, `lower_x` for the lower one. -/
def crestX (p : ParsecParams) (up : Bool) : ℚ :=
  if up then p.upper_x else p.lower_x

/-- Crest ordinate used in `B` (source line 192). -/
def crestZ (p : ParsecParams) (up : Bool) : ℚ :=
  if up then p.upper_z else p.lower_z

/-- Crest curvature used in `B` (source line 195). -/
def crestC (p : ParsecParams) (up : Bool) : ℚ :=
  if up then p.upper_c else p.lower_c

/-- The 6×6 PARSEC matrix of `ParsecAirfoil.A` (source lines 173-184),
written in terms of `s`, the square root of the crest abscissa: the
source's `x**0.5` is `s`, `x**1.5` is `s^3`, ..., `x**-0.5` is `1/s` and
`x**-1.5` is `1/s^3`; the decimal coefficients `0.5, 1.5, …, 24.75` are the
exact rationals below. -/
def Amat (s : ℚ) : Matrix (Fin 6) (Fin 6) ℚ :=
  !![1, 1, 1, 1, 1, 1;
     s, s^3, s^5, s^7, s^9, s^11;
     1/2, 3/2, 5/2, 7/2, 9/2, 11/2;
     1/(2*s), 3*s/2, 5*s^3/2, 7*s^5/2, 9*s^7/2, 11*s^9/2;
     -1/(4*s^3), 3/(4*s), 15*s/4, 35*s^3/4, 63*s^5/4, 99*s^7/4;
     1, 0, 0, 0, 0, 0]

/-- The PARSEC boundary-value vector of `ParsecAirfoil.B` (source lines
186-197).  `sign` is `+1` for the upper surface and `-1` for the lower
one; `t` stands for `tan(te_alpha - sign * 0.5 * te_beta)` and `r` for
`sqrt(2 * le_radius)` (both irrational in general, hence symbolic). -/
def Bvec (p : ParsecParams) (up : Bool) (t r : ℚ) : Fin 6 → ℚ :=
  let sign : ℚ := if up then 1 else -1
  ![p.te_z + (5/1000) * sign * p.te_thickness,
    crestZ p up,
    t,
    0,
    crestC p up,
    sign * r]

/-- `ParsecAirfoil._calculate_coefficients` (source lines 170-171):
`np.linalg.solve(self.A(upper), self.B(upper))`, with the symbolic inputs
`s`, `t`, `r` described above. -/
def calcCoefficients (p : ParsecParams) (up : Bool) (s t r : ℚ) :
    Option (Fin 6 → ℚ) :=
  solveLin (Amat s) (Bvec p up t r)

/-- The PARSEC surface basis of `_calculate_surface_coordinates` (source
lines 151-161): `y(x) = Σ k_i · x^(0.5+i)`, over `ℝ` with the real power
function. -/
noncomputable def surfY (k : Fin 6 → ℚ) (x : ℝ) : ℝ :=
  ∑ i : Fin 6, (k i : ℝ) * x ^ ((1 : ℝ)/2 + (i : ℕ))

/-- First derivative of `surfY` in closed form. -/
noncomputable def surfY1 (k : Fin 6 → ℚ) (x : ℝ) : ℝ :=
  ∑ i : Fin 6, (k i : ℝ) * (((1 : ℝ)/2 + (i : ℕ)) * x ^ ((1 : ℝ)/2 + (i : ℕ) - 1))

/-- Second derivative of `surfY` in closed form. -/
noncomputable def surfY2 (k : Fin 6 → ℚ) (x : ℝ) : ℝ :=
  ∑ i : Fin 6, (k i : ℝ) * (((1 : ℝ)/2 + (i : ℕ)) *
    ((((1 : ℝ)/2 + (i : ℕ) - 1)) * x ^ ((1 : ℝ)/2 + (i : ℕ) - 1 - 1)))

/-- A concrete parameter record used to instantiate theorems: crest at
`x = 1/4` (so its square root is exactly `1/2`), crest ordinates
`±0.06`, curvatures `∓0.1`, sharp trailing edge. -/
def pW : ParsecParams :=
  ⟨1/4, 6/100, -1/10, 1/4, -6/100, 1/10, 1/100, 0, 0, 0, 0, 200⟩

/-- The exact inverse of `Amat (1/2)`. -/
def MW : Matrix (Fin 6) (Fin 6) ℚ :=
  !![0, 0, 0, 0, 0, 1;
     -13/54, 1168/27, 1/27, -176/27, 4/9, -14;
     167/54, -7328/27, -13/27, 1376/27, -40/9, 73;
     -14, 688, 20/9, -1168/9, 44/3, -172;
     680/27, -19840/27, -112/27, 3584/27, -160/9, 176;
     -352/27, 7424/27, 64/27, -1280/27, 64/9, -64]

/-- The exact upper-surface coefficient vector for `pW` at `s = 1/2`. -/
def kW : Fin 6 → ℚ := ![0, 574/225, -396/25, 2986/75, -1904/45, 1184/75]

/-- The exact lower-surface coefficient vector for `pW` at `s = 1/2`. -/
def kWl : Fin 6 → ℚ := ![0, -574/225, 396/25, -2986/75, 1904/45, -1184/75]

/-- The cosine-spaced abscissae of `_calculate_coordinates` (source line
164): `x = 0.5 * (1 + cos(linspace(pi, 0, num_points)))`, i.e.
`θ_i = π - π·i/(n-1)`. -/
noncomputable def parsecSample (n : ℕ) : List ℝ :=
  (List.range n).map fun i : ℕ =>
    (1/2) * (1 + Real.cos (Real.pi - Real.pi * (i : ℝ) / ((n : ℝ) - 1)))

/-- `_calculate_surface_coordinates` (source lines 151-161): pairs each
abscissa with the basis value. -/
noncomputable def surfacePoints (k : Fin 6 → ℚ) (xs : List ℝ) : List (ℝ × ℝ) :=
  xs.map fun x => (x, surfY k x)

/-- `_calculate_coordinates` (source lines 163-168): the upper-surface
points followed by the reversed lower-surface points. -/
noncomputable def calcCoordinates (ku kl : Fin 6 → ℚ) (n : ℕ) : List (ℝ × ℝ) :=
  surfacePoints ku (parsecSample n) ++ (surfacePoints kl (parsecSample n)).reverse

/-- Observable state of a `ParsecAirfoil`: the scalar parameters plus the
derived coefficient tuples and coordinate list. -/
structure ParsecState where
  params : ParsecParams
  upper_coefficients : Fin 6 → ℚ
  lower_coefficients : Fin 6 → ℚ
  coordinates : List (ℝ × ℝ)

/-- Result of a trait write.  `validationError` carries the (unchanged)
state at the moment the bounds check raised; `numericalError` carries the
object state at the moment a `LinAlgError` propagates out of an observer
(parameter writes that already committed stay committed, derived fields
keep their prior values). -/
inductive WriteOutcome (σ : Type) where
  | ok (st : σ)
  | validationError (st : σ)
  | numericalError (st : σ)

/-- The observable object state after a write, whatever the outcome. -/
def WriteOutcome.stateOf {σ : Type} : WriteOutcome σ → σ
  | .ok st => st
  | .validationError st => st
  | .numericalError st => st

/-- Whether a write completed without raising. -/
def WriteOutcome.isOk {σ : Type} : WriteOutcome σ → Bool
  | .ok _ => true
  | _ => false

/-- `_update_upper_coefficients` (source lines 139-141): recompute the
upper solve; assigning the new tuple fires `_update_coordinates` (source
lines 147-149).  The right-hand side is computed before the assignment, so
a raise leaves every derived field untouched. -/
noncomputable def updateUpperCoefficients (st : ParsecState) (s t r : ℚ) :
    WriteOutcome ParsecState :=
  match calcCoefficients st.params true s t r with
  | none => .numericalError st
  | some k =>
      .ok { st with
              upper_coefficients := k,
              coordinates := calcCoordinates k st.lower_coefficients st.params.num_points }

/-- `_update_lower_coefficients` (source lines 143-145) with the same
coordinate cascade. -/
noncomputable def updateLowerCoefficients (st : ParsecState) (s t r : ℚ) :
    WriteOutcome ParsecState :=
  match calcCoefficients st.params false s t r with
  | none => .numericalError st
  | some k =>
      .ok { st with
              lower_coefficients := k,
              coordinates := calcCoordinates st.upper_coefficients k st.params.num_points }

/-- Write to `ParsecAirfoil.upper_x` (declared bounds `[0.01, 0.99]`,
source lines 88-93): validate, commit, then run the registered observer
`_update_upper_coefficients`.  `s` is the square root of the committed
value. -/
noncomputable def writeUpperX (st : ParsecState) (v s t r : ℚ) :
    WriteOutcome ParsecState :=
  if 1/100 ≤ v ∧ v ≤ 99/100 then
    updateUpperCoefficients { st with params := { st.params with upper_x := v } } s t r
  else .validationError st

/-- Write to `ParsecAirfoil.lower_x` (declared bounds `[0.01, 0.99]`,
source line 107): validate, commit, run `_update_lower_coefficients`. -/
noncomputable def writeLowerX (st : ParsecState) (v s t r : ℚ) :
    WriteOutcome ParsecState :=
  if 1/100 ≤ v ∧ v ≤ 99/100 then
    updateLowerCoefficients { st with params := { st.params with lower_x := v } } s t r
  else .validationError st

/-- Write to `ParsecAirfoil.num_points` (bounds `[50, 1000]`, source line
122): the only registered observer is `_update_coordinates` (source lines
147-149), which resamples the coordinates from the stored coefficient
tuples. -/
noncomputable def writeNumPoints (st : ParsecState) (n : ℕ) :
    WriteOutcome ParsecState :=
  if 50 ≤ n ∧ n ≤ 1000 then
    .ok { st with
            params := { st.params with num_points := n },
            coordinates := calcCoordinates st.upper_coefficients st.lower_coefficients n }
  else .validationError st

/-- Observable state of a `SimplifiedParsecAirfoil` (source lines 200-223):
the inherited PARSEC state plus the three simplified parameters. -/
structure SimpState where
  base : ParsecState
  camber : ℚ
  crest_x : ℚ
  thickness : ℚ

/-- The parameter-projection phase of `_update_coefficients` (source lines
214-218): `upper_z = 0.5*thickness + camber*0.01`,
`lower_z = -0.5*thickness + camber*0.01`, `upper_x = lower_x = crest_x`.
These four nested writes trigger nothing further: the inherited observers
are removed (source lines 207-210) and none of the four traits appears in
the simplified observer list (source line 212). -/
def simpProject (st : SimpState) : SimpState :=
  { st with
      base := { st.base with
                  params := { st.base.params with
                                upper_z := (1/2) * st.thickness + st.camber * (1/100),
                                lower_z := -(1/2) * st.thickness + st.camber * (1/100),
                                upper_x := st.crest_x,
                                lower_x := st.crest_x } } }

/-- `SimplifiedParsecAirfoil._update_coefficients` (source lines 212-223):
project the simplified parameters, recompute both coefficient tuples, then
recompute the coordinates, as one atomic step.  `s` is the square root of
`crest_x`; `tu`/`tl` are the upper/lower tangent terms and `r` is
`sqrt(2*le_radius)`.  A `LinAlgError` in either solve propagates, leaving
the assignments that follow it unexecuted. -/
noncomputable def updateCoefficientsSimp (st : SimpState) (s tu tl r : ℚ) :
    WriteOutcome SimpState :=
  match calcCoefficients (simpProject st).base.params true s tu r with
  | none => .numericalError (simpProject st)
  | some ku =>
      match calcCoefficients (simpProject st).base.params false s tl r with
      | none =>
          .numericalError
            { simpProject st with
                base := { (simpProject st).base with upper_coefficients := ku } }
      | some kl =>
          .ok { simpProject st with
                  base := { (simpProject st).base with
                              upper_coefficients := ku,
                              lower_coefficients := kl,
                              coordinates :=
                                calcCoordinates ku kl (simpProject st).base.params.num_points } }

/-- Write to `SimplifiedParsecAirfoil.camber` (bounds `[-1, 1]`, source
line 203); `camber` is in the observer list of `_update_coefficients`. -/
noncomputable def writeCamberSimp (st : SimpState) (v s tu tl r : ℚ) :
    WriteOutcome SimpState :=
  if -1 ≤ v ∧ v ≤ 1 then updateCoefficientsSimp { st with camber := v } s tu tl r
  else .validationError st

/-- Write to `SimplifiedParsecAirfoil.crest_x` (bounds `[0.01, 0.99]`,
source line 204); observed by `_update_coefficients`. -/
noncomputable def writeCrestXSimp (st : SimpState) (v s tu tl r : ℚ) :
    WriteOutcome SimpState :=
  if 1/100 ≤ v ∧ v ≤ 99/100 then updateCoefficientsSimp { st with crest_x := v } s tu tl r
  else .validationError st

/-- Write to `SimplifiedParsecAirfoil.thickness` (bounds `[0.01, 0.30]`,
source line 205); observed by `_update_coefficients`. -/
noncomputable def writeThicknessSimp (st : SimpState) (v s tu tl r : ℚ) :
    WriteOutcome SimpState :=
  if 1/100 ≤ v ∧ v ≤ 30/100 then updateCoefficientsSimp { st with thickness := v } s tu tl r
  else .validationError st

/-- Write to `num_points` on a `SimplifiedParsecAirfoil`: unlike the plain
variant, `num_points` is in the observer list of `_update_coefficients`
(source line 212), so the whole atomic update reruns. -/
noncomputable def writeNumPointsSimp (st : SimpState) (n : ℕ) (s tu tl r : ℚ) :
    WriteOutcome SimpState :=
  if 50 ≤ n ∧ n ≤ 1000 then
    updateCoefficientsSimp
      { st with base := { st.base with params := { st.base.params with num_points := n } } }
      s tu tl r
  else .validationError st

/-- Write to `upper_x` on a `SimplifiedParsecAirfoil`: the inherited
observer `_update_upper_coefficients` is removed (source line 209) and
`upper_x` is not observed by `_update_coefficients`, so the write commits
with no recomputation. -/
def writeUpperXSimp (st : SimpState) (v : ℚ) : WriteOutcome SimpState :=
  if 1/100 ≤ v ∧ v ≤ 99/100 then
    .ok { st with base := { st.base with params := { st.base.params with upper_x := v } } }
  else .validationError st

/-- Write to `lower_x` on a `SimplifiedParsecAirfoil`: commits with no
recomputation (observers removed, not in the simplified observer list). -/
def writeLowerXSimp (st : SimpState) (v : ℚ) : WriteOutcome SimpState :=
  if 1/100 ≤ v ∧ v ≤ 99/100 then
    .ok { st with base := { st.base with params := { st.base.params with lower_x := v } } }
  else .validationError st

/-- Write to `upper_z` (bounds `[-1, 1]`) on a `SimplifiedParsecAirfoil`:
commits with no recomputation. -/
def writeUpperZSimp (st : SimpState) (v : ℚ) : WriteOutcome SimpState :=
  if -1 ≤ v ∧ v ≤ 1 then
    .ok { st with base := { st.base with params := { st.base.params with upper_z := v } } }
  else .validationError st

/-- Write to `lower_z` (bounds `[-1, 1]`) on a `SimplifiedParsecAirfoil`:
commits with no recomputation. -/
def writeLowerZSimp (st : SimpState) (v : ℚ) : WriteOutcome SimpState :=
  if -1 ≤ v ∧ v ≤ 1 then
    .ok { st with base := { st.base with params := { st.base.params with lower_z := v } } }
  else .validationError st

/-- Observable state of a `FourSeries` NACA airfoil (source lines 22-70). -/
structure FourState where
  name : String
  finite_trailing_edge : Bool
  num_points : ℕ
  coordinates : List (ℝ × ℝ)

/-- Python `re.match` of the pattern `^[0-9][0-9][0-9]{2}$` (source line
23) together with the digit decoding of `_update_coordinates` (source
lines 36-39).  Returns the camber-max digit, the camber-position digit and
the two-digit thickness.  Note Python's `$` also matches just before a
single trailing newline, so a four-digit string followed by one newline
matches as well. -/
def parseNaca (v : String) : Option (ℕ × ℕ × ℕ) :=
  match v.data with
  | [a, b, c, d] =>
      if a.isDigit && b.isDigit && c.isDigit && d.isDigit then
        some (a.toNat - 48, b.toNat - 48, 10 * (c.toNat - 48) + (d.toNat - 48))
      else none
  | [a, b, c, d, e] =>
      if (a.isDigit && b.isDigit && c.isDigit && d.isDigit) && e == '\n' then
        some (a.toNat - 48, b.toNat - 48, 10 * (c.toNat - 48) + (d.toNat - 48))
      else none
  | _ => none

/-- Whether a proposed `name` matches the NACA 4-series pattern. -/
def nacaMatches (v : String) : Bool :=
  (parseNaca v).isSome

/-- `camber_max = 0.01 * digit` (source line 37). -/
noncomputable def camberMaxOf (m : ℕ) : ℝ := (1/100 : ℝ) * m

/-- `camber_pos = 0.1 * digit` (source line 38). -/
noncomputable def camberPosOf (p : ℕ) : ℝ := (1/10 : ℝ) * p

/-- `thickness = 0.01 * two-digit value` (source line 39). -/
noncomputable def thicknessOf (tt : ℕ) : ℝ := (1/100 : ℝ) * tt

/-- The NACA thickness distribution (source lines 41-46):
`5·t·(a0·√x + a4·x⁴ + a3·x³ + a2·x² + a1·x)` with
`(a0, a1, a2, a3) = (0.2969, -0.1260, -0.3516, 0.2843)` and `a4` chosen by
the finite-trailing-edge flag. -/
noncomputable def thickDist (th : ℝ) (fte : Bool) (x : ℝ) : ℝ :=
  let a4 : ℝ := if fte then -0.1015 else -0.1036
  5 * th * (0.2969 * Real.sqrt x +
    (a4 * x^4 + 0.2843 * x^3 + (-0.3516) * x^2 + (-0.1260) * x))

/-- The mean camber line (source lines 48-54): identically zero when the
camber-position is zero, otherwise the piecewise quadratic split at
`x = camber_pos`.  The source applies the first branch to the entries with
`x < camber_pos` and the second to the rest of the ascending sample, which
is this pointwise form. -/
noncomputable def meanCamber (m p x : ℝ) : ℝ :=
  if p = 0 then 0
  else if x < p then (m / p^2) * (2 * p * x - x^2)
  else (m / (1 - p)^2) * ((1 - 2*p) + 2*p*x - x^2)

/-- The mean-camber slope (source lines 55-58), the analytic derivative of
the active branch. -/
noncomputable def camberSlope (m p x : ℝ) : ℝ :=
  if x < p then (m / p^2) * (2*p - 2*x)
  else (m / (1 - p)^2) * (2*p - 2*x)

/-- The local surface angle (source lines 49 and 59): zero for a symmetric
section, else `atan` of the slope. -/
noncomputable def camberAngle (m p x : ℝ) : ℝ :=
  if p = 0 then 0 else Real.arctan (camberSlope m p x)

/-- An upper-surface point (source lines 61-64):
`(x - t·sin θ, yc + t·cos θ)`. -/
noncomputable def upperPoint (m p th : ℝ) (fte : Bool) (x : ℝ) : ℝ × ℝ :=
  (x - thickDist th fte x * Real.sin (camberAngle m p x),
   meanCamber m p x + thickDist th fte x * Real.cos (camberAngle m p x))

/-- A lower-surface point (source lines 65-68):
`(x + t·sin θ, yc - t·cos θ)`. -/
noncomputable def lowerPoint (m p th : ℝ) (fte : Bool) (x : ℝ) : ℝ × ℝ :=
  (x + thickDist th fte x * Real.sin (camberAngle m p x),
   meanCamber m p x - thickDist th fte x * Real.cos (camberAngle m p x))

/-- The half-cosine sample of source line 44:
`x = 0.5 * (1 - cos(linspace(0, pi, n)))`, i.e. `θ_i = π·i/(n-1)`. -/
noncomputable def fourSample (n : ℕ) : List ℝ :=
  (List.range n).map fun i : ℕ =>
    (1/2) * (1 - Real.cos (Real.pi * (i : ℝ) / ((n : ℝ) - 1)))

/-- `FourSeries._update_coordinates` output (source line 70): the reversed
upper points followed by the lower points with the first (leading-edge)
entry dropped. -/
noncomputable def fourCoordinates (m p th : ℝ) (fte : Bool) (n : ℕ) : List (ℝ × ℝ) :=
  ((fourSample n).map (upperPoint m p th fte)).reverse ++
    ((fourSample n).map (lowerPoint m p th fte)).drop 1

/-- Outcome of a `FourSeries.name` write; a `validationError` carries the
raised message. -/
inductive NacaOutcome where
  | ok (st : FourState)
  | validationError (st : FourState) (msg : String)

/-- Write to `FourSeries.name`: `_validate_name` (source lines 27-32)
raises with a message quoting the proposed value when the pattern fails,
leaving the state unchanged; otherwise the name commits and the observer
`_update_coordinates` (source lines 34-70) rebuilds the coordinates. -/
noncomputable def writeName (st : FourState) (v : String) : NacaOutcome :=
  match parseNaca v with
  | none =>
      .validationError st ("'" ++ v ++ "' is not a valid NACA 4-Series definition!")
  | some (m, p, tt) =>
      .ok { st with
              name := v,
              coordinates := fourCoordinates (camberMaxOf m) (camberPosOf p)
                (thicknessOf tt) st.finite_trailing_edge st.num_points }

/-- A `FourSeries` state with the source's defaults (source lines 9, 24,
25): name "Custom Airfoil", finite trailing edge, 200 points. -/
def stFW : FourState :=
  { name := "Custom Airfoil", finite_trailing_edge := true,
    num_points := 200, coordinates := [] }

/-- A `ParsecAirfoil` state is consistent when its stored coefficient
tuples are the solves for the current parameters and its coordinate list
is the sampling of those tuples — the state every construction or
successful write leaves behind. -/
def ParsecConsistent (st : ParsecState) (s tu tl r : ℚ) : Prop :=
  calcCoefficients st.params true s tu r = some st.upper_coefficients ∧
  calcCoefficients st.params false s tl r = some st.lower_coefficients ∧
  st.coordinates = calcCoordinates st.upper_coefficients st.lower_coefficients st.params.num_points

/-- A fully concrete consistent PARSEC state built on `pW`. -/
noncomputable def stPW : ParsecState :=
  { params := pW, upper_coefficients := kW, lower_coefficients := kWl,
    coordinates := calcCoordinates kW kWl 200 }

/-- A concrete simplified state built on `stPW`, consistent with its
parameters (`crest_x = 1/4`, `thickness = 0.12`, `camber = 0`). -/
noncomputable def sstW : SimpState :=
  { base := stPW, camber := 0, crest_x := 1/4, thickness := 12/100 }

/-- A concrete simplified state carrying the claimed inputs
`camber = 0`, `crest_x = 0.3`, `thickness = 0.12`. -/
noncomputable def sstW2 : SimpState :=
  { base := stPW, camber := 0, crest_x := 3/10, thickness := 12/100 }

/-- A `SimplifiedParsecAirfoil` state is consistent when its PARSEC
parameters agree with the projection of its simplified parameters and its
coefficient tuples are the solves for those parameters — the state every
committed simplified write leaves behind. -/
def SimpConsistent (st : SimpState) (s tu tl r : ℚ) : Prop :=
  st.base.params.upper_z = (1/2) * st.thickness + st.camber * (1/100) ∧
  st.base.params.lower_z = -(1/2) * st.thickness + st.camber * (1/100) ∧
  st.base.params.upper_x = st.crest_x ∧
  st.base.params.lower_x = st.crest_x ∧
  calcCoefficients st.base.params true s tu r = some st.base.upper_coefficients ∧
  calcCoefficients st.base.params false s tl r = some st.base.lower_coefficients

theorem solveLin_eq_none_iff (A : Matrix (Fin 6) (Fin 6) ℚ) (b : Fin 6 → ℚ) :
    solveLin A b = none ↔ A.det = 0 := by
  unfold solveLin
  by_cases h : A.det = 0 <;> simp [h]

theorem solveLin_mulVec (A : Matrix (Fin 6) (Fin 6) ℚ) (b k : Fin 6 → ℚ)
    (h : solveLin A b = some k) : A *ᵥ k = b := by
  unfold solveLin at h
  split at h
  · rename_i hd
    obtain rfl : (A.det⁻¹ • A.adjugate) *ᵥ b = k := Option.some.inj h
    rw [Matrix.mulVec_mulVec]
    have : A * (A.det⁻¹ • A.adjugate) = 1 := by
      rw [Matrix.mul_smul, Matrix.mul_adjugate, smul_smul,
        inv_mul_cancel₀ hd, one_smul]
    rw [this, Matrix.one_mulVec]
  · exact absurd h (by simp)

theorem solveLin_of_right_inv (A M : Matrix (Fin 6) (Fin 6) ℚ) (b : Fin 6 → ℚ)
    (h : A * M = 1) : solveLin A b = some (M *ᵥ b) := by
  have hu : IsUnit A.det := Matrix.isUnit_det_of_right_inverse h
  have hd : A.det ≠ 0 := hu.ne_zero
  have hinv : A.det⁻¹ • A.adjugate = M := by
    rw [← Ring.inverse_eq_inv, ← Matrix.inv_def, Matrix.inv_eq_right_inv h]
  unfold solveLin
  rw [if_pos hd, hinv]

/-- Entry access of a six-element vector literal at index 5, in the style
of the four-element lemmas provided by the library. -/
theorem cons_val_five' {α : Type} {m : ℕ} (x : α)
    (u : Fin m.succ.succ.succ.succ.succ → α) :
    vecCons x u 5 = vecHead (vecTail (vecTail (vecTail (vecTail u)))) :=
  rfl

theorem hasDerivAt_surfY (k : Fin 6 → ℚ) {x : ℝ} (hx : 0 < x) :
    HasDerivAt (surfY k) (surfY1 k x) x :=
  HasDerivAt.sum fun _ _ =>
    (Real.hasDerivAt_rpow_const (Or.inl hx.ne')).const_mul _

theorem hasDerivAt_surfY1 (k : Fin 6 → ℚ) {x : ℝ} (hx : 0 < x) :
    HasDerivAt (surfY1 k) (surfY2 k x) x :=
  HasDerivAt.sum fun _ _ =>
    ((Real.hasDerivAt_rpow_const (Or.inl hx.ne')).const_mul _).const_mul _

/-- On positive abscissae the second iterated derivative of the PARSEC
basis is the closed form `surfY2`. -/
theorem iteratedDeriv_two_surfY (k : Fin 6 → ℚ) {x : ℝ} (hx : 0 < x) :
    iteratedDeriv 2 (surfY k) x = surfY2 k x := by
  rw [iteratedDeriv_succ, iteratedDeriv_one]
  have hev : deriv (surfY k) =ᶠ[𝓝 x] surfY1 k := by
    filter_upwards [Ioi_mem_nhds hx] with y hy
    exact (hasDerivAt_surfY k hy).deriv
  rw [hev.deriv_eq]
  exact (hasDerivAt_surfY1 k hx).deriv

theorem rpow_sq_nat (s : ℝ) (hs : 0 < s) (e : ℝ) (m : ℕ) (he : 2 * e = m) :
    (s ^ 2) ^ e = s ^ m := by
  rw [← Real.rpow_natCast s 2, ← Real.rpow_mul hs.le,
    show ((2 : ℕ) : ℝ) * e = (m : ℝ) from by push_cast; linarith,
    Real.rpow_natCast]

theorem rpow_sq_sub3 (s : ℝ) (hs : 0 < s) (e : ℝ) (m : ℕ) (he : 2 * e = m - 3) :
    (s ^ 2) ^ e = s ^ m / s ^ 3 := by
  rw [← Real.rpow_natCast s 2, ← Real.rpow_mul hs.le,
    show ((2 : ℕ) : ℝ) * e = (m : ℝ) - 3 from by push_cast; linarith,
    Real.rpow_sub hs, Real.rpow_natCast,
    show (3 : ℝ) = ((3 : ℕ) : ℝ) from by norm_num, Real.rpow_natCast]

/-- The basis evaluated at `x = s^2` is a polynomial in `s` with the odd
powers `s, s^3, …, s^11`. -/
theorem surfY_sq (k : Fin 6 → ℚ) (s : ℚ) (hs : 0 < s) :
    surfY k ((s : ℝ) ^ 2) =
      ((∑ i : Fin 6, k i * s ^ (2 * (i : ℕ) + 1) : ℚ) : ℝ) := by
  have hsR : (0 : ℝ) < (s : ℝ) := by exact_mod_cast hs
  unfold surfY
  rw [Fin.sum_univ_six, Fin.sum_univ_six]
  simp only [show ((0 : Fin 6) : ℕ) = 0 from rfl, show ((1 : Fin 6) : ℕ) = 1 from rfl,
    show ((2 : Fin 6) : ℕ) = 2 from rfl, show ((3 : Fin 6) : ℕ) = 3 from rfl,
    show ((4 : Fin 6) : ℕ) = 4 from rfl, show ((5 : Fin 6) : ℕ) = 5 from rfl]
  push_cast
  rw [rpow_sq_nat _ hsR _ 1 (by norm_num), rpow_sq_nat _ hsR _ 3 (by norm_num),
    rpow_sq_nat _ hsR _ 5 (by norm_num), rpow_sq_nat _ hsR _ 7 (by norm_num),
    rpow_sq_nat _ hsR _ 9 (by norm_num), rpow_sq_nat _ hsR _ 11 (by norm_num)]

/-- The closed-form second derivative at `x = s^2` as a rational function
of `s`, matching the entries of row 4 of the matrix `A`. -/
theorem surfY2_sq (k : Fin 6 → ℚ) (s : ℚ) (hs : 0 < s) :
    surfY2 k ((s : ℝ) ^ 2) =
      ((∑ i : Fin 6, k i * ((4 * ((i : ℕ) : ℚ) ^ 2 - 1) / 4) * s ^ (2 * (i : ℕ)) / s ^ 3 : ℚ) : ℝ) := by
  have hsR : (0 : ℝ) < (s : ℝ) := by exact_mod_cast hs
  unfold surfY2
  rw [Fin.sum_univ_six, Fin.sum_univ_six]
  simp only [show ((0 : Fin 6) : ℕ) = 0 from rfl, show ((1 : Fin 6) : ℕ) = 1 from rfl,
    show ((2 : Fin 6) : ℕ) = 2 from rfl, show ((3 : Fin 6) : ℕ) = 3 from rfl,
    show ((4 : Fin 6) : ℕ) = 4 from rfl, show ((5 : Fin 6) : ℕ) = 5 from rfl]
  push_cast
  rw [rpow_sq_sub3 _ hsR _ 0 (by norm_num), rpow_sq_sub3 _ hsR _ 2 (by norm_num),
    rpow_sq_sub3 _ hsR _ 4 (by norm_num), rpow_sq_sub3 _ hsR _ 6 (by norm_num),
    rpow_sq_sub3 _ hsR _ 8 (by norm_num), rpow_sq_sub3 _ hsR _ 10 (by norm_num)]
  ring

/-- Row 1 of `A` applied to `k` is the basis evaluated at the crest. -/
theorem Amat_mulVec_one (s : ℚ) (k : Fin 6 → ℚ) :
    ((Amat s) *ᵥ k) 1 = ∑ i : Fin 6, k i * s ^ (2 * (i : ℕ) + 1) := by
  rw [Fin.sum_univ_six]
  simp only [show ((0 : Fin 6) : ℕ) = 0 from rfl, show ((1 : Fin 6) : ℕ) = 1 from rfl,
    show ((2 : Fin 6) : ℕ) = 2 from rfl, show ((3 : Fin 6) : ℕ) = 3 from rfl,
    show ((4 : Fin 6) : ℕ) = 4 from rfl, show ((5 : Fin 6) : ℕ) = 5 from rfl]
  simp [Amat, Matrix.mulVec, Matrix.dotProduct, Fin.sum_univ_six, cons_val_five']
  ring

/-- Row 4 of `A` applied to `k` is the closed-form second derivative of
the basis evaluated at the crest. -/
theorem Amat_mulVec_four (s : ℚ) (hs : s ≠ 0) (k : Fin 6 → ℚ) :
    ((Amat s) *ᵥ k) 4 = ∑ i : Fin 6, k i * ((4 * ((i : ℕ) : ℚ) ^ 2 - 1) / 4) * s ^ (2 * (i : ℕ)) / s ^ 3 := by
  rw [Fin.sum_univ_six]
  simp only [show ((0 : Fin 6) : ℕ) = 0 from rfl, show ((1 : Fin 6) : ℕ) = 1 from rfl,
    show ((2 : Fin 6) : ℕ) = 2 from rfl, show ((3 : Fin 6) : ℕ) = 3 from rfl,
    show ((4 : Fin 6) : ℕ) = 4 from rfl, show ((5 : Fin 6) : ℕ) = 5 from rfl]
  simp [Amat, Matrix.mulVec, Matrix.dotProduct, Fin.sum_univ_six, cons_val_five']
  field_simp
  ring

/-- C1 (claim): for every valid assignment of the PARSEC shape parameters,
the six coefficients returned by the solve of `A k = B`, substituted into
the basis `y(x) = Σ k_i x^(0.5+i)` and evaluated at the declared crest
abscissa, reproduce the crest ordinate, and the second derivative of that
basis at the crest reproduces the crest curvature. -/
theorem parsec_crest_roundtrip (p : ParsecParams) (up : Bool) (s t r : ℚ)
    (hs : 0 < s) (hx : s ^ 2 = crestX p up) (k : Fin 6 → ℚ)
    (hk : calcCoefficients p up s t r = some k) :
    surfY k ((crestX p up : ℚ) : ℝ) = ((crestZ p up : ℚ) : ℝ) ∧
      iteratedDeriv 2 (surfY k) ((crestX p up : ℚ) : ℝ) = ((crestC p up : ℚ) : ℝ) := by
  have hmv : (Amat s) *ᵥ k = Bvec p up t r := solveLin_mulVec _ _ _ hk
  have hxR : ((crestX p up : ℚ) : ℝ) = ((s : ℝ)) ^ 2 := by
    rw [← hx]; push_cast; ring
  have hz : ((Amat s) *ᵥ k) 1 = crestZ p up := by rw [hmv]; simp [Bvec]
  have hc : ((Amat s) *ᵥ k) 4 = crestC p up := by rw [hmv]; simp [Bvec]
  have hsR : (0 : ℝ) < (s : ℝ) := by exact_mod_cast hs
  constructor
  · rw [hxR, surfY_sq k s hs, ← Amat_mulVec_one s k, hz]
  · rw [hxR, iteratedDeriv_two_surfY k (pow_pos hsR 2), surfY2_sq k s hs,
      ← Amat_mulVec_four s hs.ne' k, hc]

theorem Amat_half_mul_MW : Amat (1/2) * MW = 1 := by
  ext i j
  fin_cases i <;> fin_cases j <;>
    norm_num [Amat, MW, Matrix.mul_apply, Fin.sum_univ_six, Matrix.one_apply,
      cons_val_five', Fin.ext_iff]

theorem Bvec_pW_true : Bvec pW true 0 0 = ![0, 6/100, 0, 0, -1/10, 0] := by
  funext i
  fin_cases i <;> norm_num [Bvec, pW, crestZ, crestC, cons_val_five']

theorem Bvec_pW_false : Bvec pW false 0 0 = ![0, -6/100, 0, 0, 1/10, 0] := by
  funext i
  fin_cases i <;> norm_num [Bvec, pW, crestZ, crestC, cons_val_five']

theorem calcCoefficients_pW_true :
    calcCoefficients pW true (1/2) 0 0 = some kW := by
  unfold calcCoefficients
  rw [Bvec_pW_true, solveLin_of_right_inv (Amat (1/2)) MW _ Amat_half_mul_MW]
  congr 1
  funext i
  fin_cases i <;>
    norm_num [MW, kW, Matrix.mulVec, Matrix.dotProduct, Fin.sum_univ_six, cons_val_five']

theorem calcCoefficients_pW_false :
    calcCoefficients pW false (1/2) 0 0 = some kWl := by
  unfold calcCoefficients
  rw [Bvec_pW_false, solveLin_of_right_inv (Amat (1/2)) MW _ Amat_half_mul_MW]
  congr 1
  funext i
  fin_cases i <;>
    norm_num [MW, kWl, Matrix.mulVec, Matrix.dotProduct, Fin.sum_univ_six, cons_val_five']

/-- Witness for C1: the hypotheses of `parsec_crest_roundtrip` hold at the
concrete record `pW` with `s = 1/2`, and its conclusion follows. -/
theorem parsec_crest_roundtrip_witness :
    ((0 : ℚ) < 1/2 ∧ (1/2 : ℚ) ^ 2 = crestX pW true ∧
      calcCoefficients pW true (1/2) 0 0 = some kW) ∧
    (surfY kW ((crestX pW true : ℚ) : ℝ) = ((crestZ pW true : ℚ) : ℝ) ∧
      iteratedDeriv 2 (surfY kW) ((crestX pW true : ℚ) : ℝ) = ((crestC pW true : ℚ) : ℝ)) :=
  ⟨⟨by norm_num, by norm_num [crestX, pW], calcCoefficients_pW_true⟩,
    parsec_crest_roundtrip pW true (1/2) 0 0 (by norm_num)
      (by norm_num [crestX, pW]) kW calcCoefficients_pW_true⟩

/-- C5: writing a name to a NACA four-digit airfoil validates it against
the pattern `^[0-9][0-9][0-9]{2}$`: a matching string is accepted and
stored; a failing string is rejected with a `ValidationError` whose
message quotes the offending string, leaving the stored name (and the
rest of the state) unchanged. -/
theorem naca_name_validation (st : FourState) (v : String) :
    (nacaMatches v = true →
      ∃ st2 : FourState, writeName st v = NacaOutcome.ok st2 ∧ st2.name = v ∧
        st2.finite_trailing_edge = st.finite_trailing_edge ∧
        st2.num_points = st.num_points) ∧
    (nacaMatches v = false →
      writeName st v = NacaOutcome.validationError st
        ("'" ++ v ++ "' is not a valid NACA 4-Series definition!")) := by
  constructor
  · intro hm
    unfold nacaMatches at hm
    obtain ⟨⟨m, p, tt⟩, hp⟩ := Option.isSome_iff_exists.mp hm
    unfold writeName
    rw [hp]
    exact ⟨_, rfl, rfl, rfl, rfl⟩
  · intro hm
    unfold nacaMatches at hm
    have hp : parseNaca v = none := by
      cases hq : parseNaca v
      · rfl
      · rw [hq] at hm
        simp at hm
    unfold writeName
    rw [hp]

/-- Witness for C5 at the source examples: "2412" matches and is stored,
"12345" and "12a4" fail, and the failing write returns a validation error
quoting the string with the state unchanged. -/
theorem naca_name_validation_witness :
    nacaMatches "2412" = true ∧ nacaMatches "12345" = false ∧
    nacaMatches "12a4" = false ∧
    (∃ st2 : FourState, writeName stFW "2412" = NacaOutcome.ok st2 ∧
      st2.name = "2412" ∧
      st2.finite_trailing_edge = stFW.finite_trailing_edge ∧
      st2.num_points = stFW.num_points) ∧
    writeName stFW "12a4" = NacaOutcome.validationError stFW
      ("'" ++ "12a4" ++ "' is not a valid NACA 4-Series definition!") :=
  ⟨by decide, by decide, by decide,
   (naca_name_validation stFW "2412").1 (by decide),
   (naca_name_validation stFW "12a4").2 (by decide)⟩

/-- At the leading edge the thickness distribution vanishes (the
polynomial part has no constant term and `sqrt 0 = 0`). -/
theorem thickDist_zero (th : ℝ) (fte : Bool) : thickDist th fte 0 = 0 := by
  unfold thickDist
  norm_num [Real.sqrt_zero]

/-- At the leading edge the mean camber line vanishes for any nonnegative
camber position. -/
theorem meanCamber_zero_left (m p : ℝ) (hp : 0 ≤ p) : meanCamber m p 0 = 0 := by
  unfold meanCamber
  rcases eq_or_lt_of_le hp with h | h
  · simp [← h]
  · rw [if_neg (by linarith), if_pos h]
    ring

/-- The upper-surface and lower-surface points coincide at the leading
edge (the shared sample of C10). -/
theorem upperPoint_zero_eq_lowerPoint_zero (m p th : ℝ) (hp : 0 ≤ p) (fte : Bool) :
    upperPoint m p th fte 0 = lowerPoint m p th fte 0 := by
  unfold upperPoint lowerPoint
  rw [thickDist_zero, meanCamber_zero_left m p hp]
  simp

/-- C8: the designation "0012" has camber-position digit zero, so the mean
camber line is identically zero and every upper-surface point is the exact
mirror image of the lower-surface point at the same abscissa. -/
theorem naca0012_symmetric (m p tt : ℕ)
    (hp : parseNaca "0012" = some (m, p, tt)) (fte : Bool) (x : ℝ) :
    meanCamber (camberMaxOf m) (camberPosOf p) x = 0 ∧
    (upperPoint (camberMaxOf m) (camberPosOf p) (thicknessOf tt) fte x).1 =
      (lowerPoint (camberMaxOf m) (camberPosOf p) (thicknessOf tt) fte x).1 ∧
    (upperPoint (camberMaxOf m) (camberPosOf p) (thicknessOf tt) fte x).2 =
      -(lowerPoint (camberMaxOf m) (camberPosOf p) (thicknessOf tt) fte x).2 := by
  have h0 : parseNaca "0012" = some (0, 0, 12) := by decide
  rw [h0] at hp
  obtain ⟨hm, hpp, htt⟩ : 0 = m ∧ 0 = p ∧ 12 = tt := by
    simpa [Prod.ext_iff] using hp
  subst hm
  subst hpp
  subst htt
  have hP : camberPosOf 0 = 0 := by simp [camberPosOf]
  refine ⟨by simp [meanCamber, hP], ?_, ?_⟩
  · simp [upperPoint, lowerPoint, camberAngle, hP]
  · simp [upperPoint, lowerPoint, camberAngle, meanCamber, hP]

/-- Witness for C8: the parse of "0012" and the symmetric-mirror
conclusion at the leading-edge abscissa. -/
theorem naca0012_symmetric_witness :
    parseNaca "0012" = some (0, 0, 12) ∧
    (meanCamber (camberMaxOf 0) (camberPosOf 0) 0 = 0 ∧
     (upperPoint (camberMaxOf 0) (camberPosOf 0) (thicknessOf 12) true 0).1 =
       (lowerPoint (camberMaxOf 0) (camberPosOf 0) (thicknessOf 12) true 0).1 ∧
     (upperPoint (camberMaxOf 0) (camberPosOf 0) (thicknessOf 12) true 0).2 =
       -(lowerPoint (camberMaxOf 0) (camberPosOf 0) (thicknessOf 12) true 0).2) :=
  ⟨by decide, naca0012_symmetric 0 0 12 (by decide) true 0⟩

/-- The half-cosine sample has one abscissa per requested point. -/
theorem fourSample_length (n : ℕ) : (fourSample n).length = n := by
  unfold fourSample
  rw [List.length_map, List.length_range]

/-- The half-cosine sample starts exactly at the leading edge `x = 0`. -/
theorem fourSample_head (n : ℕ) (hn : 1 ≤ n) : (fourSample n).head? = some 0 := by
  obtain ⟨n', rfl⟩ : ∃ n', n = n' + 1 := ⟨n - 1, by omega⟩
  simp [fourSample, List.range_succ_eq_map]

/-- C10: for every valid designation and in-bounds sample count `n`, the
published coordinates are the `n` reversed upper-surface points followed
by the `n` lower-surface points with the first entry dropped: `2·n - 1`
points, and the dropped entry is the shared leading-edge sample (the two
surface lists have the same head). -/
theorem naca_coordinates_structure (v : String) (m p tt : ℕ)
    (hp : parseNaca v = some (m, p, tt)) (fte : Bool) (n : ℕ)
    (h50 : 50 ≤ n) (h1000 : n ≤ 1000) :
    (fourCoordinates (camberMaxOf m) (camberPosOf p) (thicknessOf tt) fte n).length = 2 * n - 1 ∧
    ((fourSample n).map (upperPoint (camberMaxOf m) (camberPosOf p) (thicknessOf tt) fte)).length = n ∧
    ((fourSample n).map (lowerPoint (camberMaxOf m) (camberPosOf p) (thicknessOf tt) fte)).length = n ∧
    ((fourSample n).map (upperPoint (camberMaxOf m) (camberPosOf p) (thicknessOf tt) fte)).head? =
      ((fourSample n).map (lowerPoint (camberMaxOf m) (camberPosOf p) (thicknessOf tt) fte)).head? := by
  refine ⟨?_, by rw [List.length_map, fourSample_length],
    by rw [List.length_map, fourSample_length], ?_⟩
  · unfold fourCoordinates
    rw [List.length_append, List.length_reverse, List.length_map, List.length_drop,
      List.length_map, fourSample_length]
    omega
  · rw [List.head?_map, List.head?_map, fourSample_head n (by omega)]
    have hp0 : (0 : ℝ) ≤ camberPosOf p := by
      unfold camberPosOf
      positivity
    simp [upperPoint_zero_eq_lowerPoint_zero (camberMaxOf m) (camberPosOf p)
      (thicknessOf tt) hp0 fte]

/-- Witness for C10 at designation "0012" with `n = 50`. -/
theorem naca_coordinates_structure_witness :
    (parseNaca "0012" = some (0, 0, 12) ∧ 50 ≤ 50 ∧ 50 ≤ 1000) ∧
    ((fourCoordinates (camberMaxOf 0) (camberPosOf 0) (thicknessOf 12) true 50).length = 2 * 50 - 1 ∧
     ((fourSample 50).map (upperPoint (camberMaxOf 0) (camberPosOf 0) (thicknessOf 12) true)).length = 50 ∧
     ((fourSample 50).map (lowerPoint (camberMaxOf 0) (camberPosOf 0) (thicknessOf 12) true)).length = 50 ∧
     ((fourSample 50).map (upperPoint (camberMaxOf 0) (camberPosOf 0) (thicknessOf 12) true)).head? =
       ((fourSample 50).map (lowerPoint (camberMaxOf 0) (camberPosOf 0) (thicknessOf 12) true)).head?) :=
  ⟨⟨by decide, by norm_num, by norm_num⟩,
   naca_coordinates_structure "0012" 0 0 12 (by decide) true 50 (by norm_num) (by norm_num)⟩

/-- The basis vanishes at the leading edge: every exponent `0.5 + i` is
positive, so `0 ^ (0.5+i) = 0`. -/
theorem surfY_zero (k : Fin 6 → ℚ) : surfY k 0 = 0 := by
  unfold surfY
  rw [Fin.sum_univ_six]
  simp only [show ((0 : Fin 6) : ℕ) = 0 from rfl, show ((1 : Fin 6) : ℕ) = 1 from rfl,
    show ((2 : Fin 6) : ℕ) = 2 from rfl, show ((3 : Fin 6) : ℕ) = 3 from rfl,
    show ((4 : Fin 6) : ℕ) = 4 from rfl, show ((5 : Fin 6) : ℕ) = 5 from rfl]
  rw [Real.zero_rpow (by norm_num), Real.zero_rpow (by norm_num),
    Real.zero_rpow (by norm_num), Real.zero_rpow (by norm_num),
    Real.zero_rpow (by norm_num), Real.zero_rpow (by norm_num)]
  ring

/-- The published PARSEC outline has one point per sample on each of the
two surfaces: `2 * num_points` in total. -/
theorem calcCoordinates_length (ku kl : Fin 6 → ℚ) (n : ℕ) :
    (calcCoordinates ku kl n).length = 2 * n := by
  unfold calcCoordinates surfacePoints parsecSample
  simp only [List.length_append, List.length_reverse, List.length_map, List.length_range]
  omega

/-- The first emitted PARSEC point is exactly the leading edge `(0, 0)`:
the first sampled angle is `π`, so `x = 0.5·(1 + cos π) = 0`, and the
basis vanishes there. -/
theorem calcCoordinates_head (ku kl : Fin 6 → ℚ) (n : ℕ) (hn : 1 ≤ n) :
    (calcCoordinates ku kl n).head? = some (0, 0) := by
  obtain ⟨n', rfl⟩ : ∃ n', n = n' + 1 := ⟨n - 1, by omega⟩
  simp [calcCoordinates, surfacePoints, parsecSample, List.range_succ_eq_map,
    surfY_zero, Real.cos_pi]

/-- C3 (amended): a consistent PARSEC state publishes `2 * num_points`
coordinates — the shared leading-edge and trailing-edge samples ARE
duplicated between the surfaces — and the first emitted point is the
leading edge `(0, 0)`. -/
theorem parsec_coordinates_shape (st : ParsecState) (s tu tl r : ℚ)
    (hc : ParsecConsistent st s tu tl r) (hn : 1 ≤ st.params.num_points) :
    st.coordinates.length = 2 * st.params.num_points ∧
    st.coordinates.head? = some (0, 0) := by
  obtain ⟨-, -, hco⟩ := hc
  rw [hco]
  exact ⟨calcCoordinates_length _ _ _, calcCoordinates_head _ _ _ hn⟩

/-- Counterexample to C3 as stated: this consistent state with
`num_points = 200` publishes `400` points, not `2·200 - 2 = 398` — the
shared leading/trailing points are duplicated, not elided. -/
theorem parsec_coordinates_shape_counterexample :
    ParsecConsistent stPW (1/2) 0 0 0 ∧
    stPW.coordinates.length ≠ 2 * stPW.params.num_points - 2 := by
  refine ⟨⟨calcCoefficients_pW_true, calcCoefficients_pW_false, rfl⟩, ?_⟩
  have h : stPW.coordinates.length = 400 := calcCoordinates_length kW kWl 200
  rw [h]
  norm_num [stPW, pW]

/-- Witness for the amended C3 on the concrete consistent state `stPW`. -/
theorem parsec_coordinates_shape_witness :
    (ParsecConsistent stPW (1/2) 0 0 0 ∧ 1 ≤ stPW.params.num_points) ∧
    (stPW.coordinates.length = 2 * stPW.params.num_points ∧
     stPW.coordinates.head? = some (0, 0)) :=
  ⟨⟨⟨calcCoefficients_pW_true, calcCoefficients_pW_false, rfl⟩, by norm_num [stPW, pW]⟩,
   parsec_coordinates_shape stPW (1/2) 0 0 0
     ⟨calcCoefficients_pW_true, calcCoefficients_pW_false, rfl⟩ (by norm_num [stPW, pW])⟩

/-- At crest abscissa `x = 1` (square root `s = 1`) the PARSEC matrix is
singular: its first two rows are both all ones. -/
theorem Amat_one_det : (Amat 1).det = 0 := by
  apply Matrix.det_zero_of_row_eq (show (0 : Fin 6) ≠ 1 by norm_num)
  funext j
  fin_cases j <;> norm_num [Amat, cons_val_five']

/-- C4: whenever the PARSEC matrix is singular the solve fails with a
numerical error that propagates (it is never an `ok` carrying junk), and
the previously published coefficient tuples and coordinates keep their
prior values; the triggering parameter write stays committed.  Recompute
is transactional: the new value is computed fully before being swapped
in. -/
theorem singular_solve_transactional (st : ParsecState) (v s t r : ℚ)
    (hdet : (Amat s).det = 0) :
    updateUpperCoefficients st s t r = WriteOutcome.numericalError st ∧
    updateLowerCoefficients st s t r = WriteOutcome.numericalError st ∧
    (1/100 ≤ v → v ≤ 99/100 →
      writeUpperX st v s t r =
        WriteOutcome.numericalError { st with params := { st.params with upper_x := v } }) := by
  have hnone : ∀ (p : ParsecParams) (up : Bool) (tv : ℚ),
      calcCoefficients p up s tv r = none := fun p up tv =>
    (solveLin_eq_none_iff _ _).mpr hdet
  refine ⟨?_, ?_, fun h1 h2 => ?_⟩
  · unfold updateUpperCoefficients
    rw [hnone]
  · unfold updateLowerCoefficients
    rw [hnone]
  · unfold writeUpperX
    rw [if_pos ⟨h1, h2⟩]
    unfold updateUpperCoefficients
    rw [hnone]

/-- Witness for C4 at the concrete singular input `s = 1` (crest at the
trailing edge): the update propagates the error and `stPW` keeps all its
derived values; the in-range write of `upper_x = 1/2` commits the
parameter and nothing else. -/
theorem singular_solve_transactional_witness :
    ((Amat 1).det = 0 ∧ (1 : ℚ)/100 ≤ 1/2 ∧ (1/2 : ℚ) ≤ 99/100) ∧
    updateUpperCoefficients stPW 1 0 0 = WriteOutcome.numericalError stPW ∧
    writeUpperX stPW (1/2) 1 0 0 =
      WriteOutcome.numericalError { stPW with params := { stPW.params with upper_x := 1/2 } } :=
  ⟨⟨Amat_one_det, by norm_num, by norm_num⟩,
   (singular_solve_transactional stPW (1/2) 1 0 0 Amat_one_det).1,
   (singular_solve_transactional stPW (1/2) 1 0 0 Amat_one_det).2.2
     (by norm_num) (by norm_num)⟩

/-- C6 (amended): `upper_x` and `lower_x` accept exactly `[0.01, 0.99]` in
BOTH the plain and the simplified variant (the trait bounds are inherited
unchanged); a write outside that range fails with a `ValidationError` and
leaves the prior parameter and all derived state untouched, while an
in-range write commits the parameter. -/
theorem crest_x_write_bounds (st : ParsecState) (sst : SimpState) (v s t r : ℚ) :
    ((v < 1/100 ∨ 99/100 < v) →
      writeUpperX st v s t r = WriteOutcome.validationError st ∧
      writeLowerX st v s t r = WriteOutcome.validationError st ∧
      writeUpperXSimp sst v = WriteOutcome.validationError sst ∧
      writeLowerXSimp sst v = WriteOutcome.validationError sst) ∧
    (1/100 ≤ v → v ≤ 99/100 →
      ((writeUpperX st v s t r).stateOf).params.upper_x = v ∧
      ((writeLowerX st v s t r).stateOf).params.lower_x = v ∧
      writeUpperXSimp sst v = WriteOutcome.ok
        { sst with base := { sst.base with params := { sst.base.params with upper_x := v } } } ∧
      writeLowerXSimp sst v = WriteOutcome.ok
        { sst with base := { sst.base with params := { sst.base.params with lower_x := v } } }) := by
  constructor
  · intro hout
    have hneg : ¬(1/100 ≤ v ∧ v ≤ 99/100) := by
      rcases hout with h | h
      · exact fun hc => absurd hc.1 (by linarith)
      · exact fun hc => absurd hc.2 (by linarith)
    refine ⟨?_, ?_, ?_, ?_⟩ <;>
      simp only [writeUpperX, writeLowerX, writeUpperXSimp, writeLowerXSimp, if_neg hneg]
  · intro h1 h2
    refine ⟨?_, ?_, ?_, ?_⟩
    · unfold writeUpperX
      rw [if_pos ⟨h1, h2⟩]
      unfold updateUpperCoefficients
      cases hq : calcCoefficients { st with params := { st.params with upper_x := v } }.params
          true s t r <;> simp [WriteOutcome.stateOf]
    · unfold writeLowerX
      rw [if_pos ⟨h1, h2⟩]
      unfold updateLowerCoefficients
      cases hq : calcCoefficients { st with params := { st.params with lower_x := v } }.params
          false s t r <;> simp [WriteOutcome.stateOf]
    · unfold writeUpperXSimp
      rw [if_pos ⟨h1, h2⟩]
    · unfold writeLowerXSimp
      rw [if_pos ⟨h1, h2⟩]

/-- Counterexample to C6 as stated: the claim says the accepted range
extends up to `1.0` in the non-simplified `ParsecAirfoil`, but writing
`1.0` to `upper_x` there is rejected with a `ValidationError` (the
declared trait maximum is `0.99` in both variants). -/
theorem crest_x_write_bounds_counterexample :
    writeUpperX stPW 1 1 0 0 = WriteOutcome.validationError stPW := by
  unfold writeUpperX
  rw [if_neg (by norm_num)]

/-- Witness for the amended C6 at `v = 1/2` (in range) and the rejection
branch at `v = 2` via the out-of-range hypothesis. -/
theorem crest_x_write_bounds_witness :
    ((1 : ℚ)/100 ≤ 1/2 ∧ (1/2 : ℚ) ≤ 99/100 ∧ ((99 : ℚ)/100 < 2)) ∧
    (((writeUpperX stPW (1/2) 1 0 0).stateOf).params.upper_x = 1/2 ∧
     ((writeLowerX stPW (1/2) 1 0 0).stateOf).params.lower_x = 1/2) ∧
    writeUpperXSimp sstW 2 = WriteOutcome.validationError sstW :=
  ⟨⟨by norm_num, by norm_num, by norm_num⟩,
   ⟨((crest_x_write_bounds stPW sstW (1/2) 1 0 0).2 (by norm_num) (by norm_num)).1,
    ((crest_x_write_bounds stPW sstW (1/2) 1 0 0).2 (by norm_num) (by norm_num)).2.1⟩,
   ((crest_x_write_bounds stPW sstW 2 1 0 0).1 (Or.inr (by norm_num))).2.2.1⟩

/-- The boundary vector reads only the trailing-edge scalars and the
crest ordinate/curvature of its side. -/
theorem Bvec_congr (p q : ParsecParams) (up : Bool) (t r : ℚ)
    (hz : p.te_z = q.te_z) (hth : p.te_thickness = q.te_thickness)
    (hcz : crestZ p up = crestZ q up) (hcc : crestC p up = crestC q up) :
    Bvec p up t r = Bvec q up t r := by
  funext i
  fin_cases i <;> simp [Bvec, hz, hth, hcz, hcc, cons_val_five']

/-- The coefficient solve depends on the parameters only through the
boundary vector. -/
theorem calcCoefficients_congr (p q : ParsecParams) (up : Bool) (s t r : ℚ)
    (hB : Bvec p up t r = Bvec q up t r) :
    calcCoefficients p up s t r = calcCoefficients q up s t r := by
  unfold calcCoefficients
  rw [hB]

/-- Whatever the outcome, the atomic simplified update leaves the
parameter record at its projected value (the four parameter writes of
source lines 214-218 happen before either solve). -/
theorem updateCoefficientsSimp_params (st : SimpState) (s tu tl r : ℚ) :
    ((updateCoefficientsSimp st s tu tl r).stateOf).base.params =
      (simpProject st).base.params := by
  unfold updateCoefficientsSimp
  cases hu : calcCoefficients (simpProject st).base.params true s tu r with
  | none => rfl
  | some ku =>
      cases hl : calcCoefficients (simpProject st).base.params false s tl r with
      | none => rfl
      | some kl => rfl

/-- C2: any in-bounds write to `camber`, `crest_x` or `thickness` runs
the projection `upper_z = 0.5·thickness + 0.01·camber`,
`lower_z = -0.5·thickness + 0.01·camber`, `upper_x = lower_x = crest_x`
(each of the three writes leaves the parameter record at the projection
of the updated simplified parameters, whatever the solve outcome);
in particular `camber = 0, crest_x = 0.3, thickness = 0.12` derives
`upper_z = 0.06`, `lower_z = -0.06`, `upper_x = lower_x = 0.3`, and the
coefficient solve on the projected parameters coincides with the solve of
a plain `ParsecAirfoil` holding exactly those derived values (the mapper
is a pure projection onto the general solver). -/
theorem simplified_projection (sst : SimpState) :
    ((simpProject sst).base.params.upper_z = (1/2) * sst.thickness + sst.camber * (1/100) ∧
     (simpProject sst).base.params.lower_z = -(1/2) * sst.thickness + sst.camber * (1/100) ∧
     (simpProject sst).base.params.upper_x = sst.crest_x ∧
     (simpProject sst).base.params.lower_x = sst.crest_x) ∧
    (∀ v s tu tl r, -1 ≤ v → v ≤ 1 →
      ((writeCamberSimp sst v s tu tl r).stateOf).base.params =
        (simpProject { sst with camber := v }).base.params) ∧
    (∀ v s tu tl r, 1/100 ≤ v → v ≤ 99/100 →
      ((writeCrestXSimp sst v s tu tl r).stateOf).base.params =
        (simpProject { sst with crest_x := v }).base.params) ∧
    (∀ v s tu tl r, 1/100 ≤ v → v ≤ 30/100 →
      ((writeThicknessSimp sst v s tu tl r).stateOf).base.params =
        (simpProject { sst with thickness := v }).base.params) ∧
    (sst.camber = 0 → sst.crest_x = 3/10 → sst.thickness = 12/100 →
      (simpProject sst).base.params.upper_z = 6/100 ∧
      (simpProject sst).base.params.lower_z = -(6/100) ∧
      (simpProject sst).base.params.upper_x = 3/10 ∧
      (simpProject sst).base.params.lower_x = 3/10 ∧
      (∀ up s t r, calcCoefficients (simpProject sst).base.params up s t r =
        calcCoefficients { sst.base.params with
          upper_x := 3/10, upper_z := 6/100, lower_x := 3/10, lower_z := -(6/100) } up s t r)) := by
  refine ⟨⟨rfl, rfl, rfl, rfl⟩, ?_, ?_, ?_, ?_⟩
  · intro v s tu tl r h1 h2
    unfold writeCamberSimp
    rw [if_pos ⟨h1, h2⟩]
    exact updateCoefficientsSimp_params _ _ _ _ _
  · intro v s tu tl r h1 h2
    unfold writeCrestXSimp
    rw [if_pos ⟨h1, h2⟩]
    exact updateCoefficientsSimp_params _ _ _ _ _
  · intro v s tu tl r h1 h2
    unfold writeThicknessSimp
    rw [if_pos ⟨h1, h2⟩]
    exact updateCoefficientsSimp_params _ _ _ _ _
  · intro h0 h1 h2
    refine ⟨by simp [simpProject, h0, h2]; norm_num,
      by simp [simpProject, h0, h2]; norm_num,
      by simp [simpProject, h1], by simp [simpProject, h1], ?_⟩
    intro up s t r
    apply calcCoefficients_congr
    apply Bvec_congr
    · rfl
    · rfl
    · cases up <;> simp [crestZ, simpProject, h0, h1, h2] <;> norm_num
    · cases up <;> simp [crestC, simpProject]

/-- Witness for C2 at the claimed concrete inputs, exercising all three
simplified-parameter writes. -/
theorem simplified_projection_witness :
    (sstW2.camber = 0 ∧ sstW2.crest_x = 3/10 ∧ sstW2.thickness = 12/100 ∧
      (-1 : ℚ) ≤ 0 ∧ (0 : ℚ) ≤ 1 ∧
      (1 : ℚ)/100 ≤ 3/10 ∧ (3 : ℚ)/10 ≤ 99/100 ∧
      (1 : ℚ)/100 ≤ 12/100 ∧ (12 : ℚ)/100 ≤ 30/100) ∧
    ((simpProject sstW2).base.params.upper_z = 6/100 ∧
     (simpProject sstW2).base.params.lower_z = -(6/100) ∧
     (simpProject sstW2).base.params.upper_x = 3/10 ∧
     (simpProject sstW2).base.params.lower_x = 3/10 ∧
     (∀ up s t r, calcCoefficients (simpProject sstW2).base.params up s t r =
       calcCoefficients { sstW2.base.params with
         upper_x := 3/10, upper_z := 6/100, lower_x := 3/10, lower_z := -(6/100) } up s t r)) ∧
    ((writeCamberSimp sstW2 0 0 0 0 0).stateOf).base.params =
      (simpProject { sstW2 with camber := 0 }).base.params ∧
    ((writeCrestXSimp sstW2 (3/10) 0 0 0 0).stateOf).base.params =
      (simpProject { sstW2 with crest_x := 3/10 }).base.params ∧
    ((writeThicknessSimp sstW2 (12/100) 0 0 0 0).stateOf).base.params =
      (simpProject { sstW2 with thickness := 12/100 }).base.params :=
  ⟨⟨rfl, rfl, rfl, by norm_num, by norm_num, by norm_num, by norm_num,
    by norm_num, by norm_num⟩,
   (simplified_projection sstW2).2.2.2.2 rfl rfl rfl,
   (simplified_projection sstW2).2.1 0 0 0 0 0 (by norm_num) (by norm_num),
   (simplified_projection sstW2).2.2.1 (3/10) 0 0 0 0 (by norm_num) (by norm_num),
   (simplified_projection sstW2).2.2.2.1 (12/100) 0 0 0 0 (by norm_num) (by norm_num)⟩

/-- Reduction of the atomic simplified update when both solves succeed. -/
theorem updateCoefficientsSimp_ok (st : SimpState) (s tu tl r : ℚ) (ku kl : Fin 6 → ℚ)
    (hu : calcCoefficients (simpProject st).base.params true s tu r = some ku)
    (hl : calcCoefficients (simpProject st).base.params false s tl r = some kl) :
    updateCoefficientsSimp st s tu tl r = WriteOutcome.ok
      { simpProject st with
          base := { (simpProject st).base with
                      upper_coefficients := ku,
                      lower_coefficients := kl,
                      coordinates :=
                        calcCoordinates ku kl (simpProject st).base.params.num_points } } := by
  unfold updateCoefficientsSimp
  rw [hu, hl]

/-- C7: writing an in-bounds `num_points` alone leaves the values of the
upper and lower coefficient tuples unchanged and only resamples the
coordinates — in the plain variant the `num_points` observer recomputes
only the coordinates; in the simplified variant the whole atomic update
reruns but, the parameters being unchanged, deterministically reproduces
the same coefficient values. -/
theorem num_points_only_resamples :
    (∀ (st : ParsecState) (n : ℕ), 50 ≤ n → n ≤ 1000 →
      writeNumPoints st n = WriteOutcome.ok
        { st with
            params := { st.params with num_points := n },
            coordinates := calcCoordinates st.upper_coefficients st.lower_coefficients n }) ∧
    (∀ (sst : SimpState) (s tu tl r : ℚ) (n : ℕ), 50 ≤ n → n ≤ 1000 →
      SimpConsistent sst s tu tl r →
      ∃ sst2 : SimpState, writeNumPointsSimp sst n s tu tl r = WriteOutcome.ok sst2 ∧
        sst2.base.upper_coefficients = sst.base.upper_coefficients ∧
        sst2.base.lower_coefficients = sst.base.lower_coefficients ∧
        sst2.base.params.num_points = n ∧
        sst2.base.coordinates =
          calcCoordinates sst.base.upper_coefficients sst.base.lower_coefficients n) := by
  constructor
  · intro st n h1 h2
    unfold writeNumPoints
    rw [if_pos ⟨h1, h2⟩]
  · intro sst s tu tl r n h1 h2 hcons
    obtain ⟨hz1, hz2, hx1, hx2, hku, hkl⟩ := hcons
    unfold writeNumPointsSimp
    rw [if_pos ⟨h1, h2⟩]
    have hB : ∀ (up : Bool) (tv rv : ℚ),
        Bvec (simpProject { sst with
          base := { sst.base with
            params := { sst.base.params with num_points := n } } }).base.params up tv rv =
        Bvec sst.base.params up tv rv := by
      intro up tv rv
      apply Bvec_congr
      · rfl
      · rfl
      · cases up
        · show -(1/2) * sst.thickness + sst.camber * (1/100) = sst.base.params.lower_z
          exact hz2.symm
        · show (1/2) * sst.thickness + sst.camber * (1/100) = sst.base.params.upper_z
          exact hz1.symm
      · cases up <;> rfl
    have hcu : calcCoefficients (simpProject { sst with
        base := { sst.base with
          params := { sst.base.params with num_points := n } } }).base.params true s tu r =
        some sst.base.upper_coefficients := by
      rw [calcCoefficients_congr _ _ true s tu r (hB true tu r)]
      exact hku
    have hcl : calcCoefficients (simpProject { sst with
        base := { sst.base with
          params := { sst.base.params with num_points := n } } }).base.params false s tl r =
        some sst.base.lower_coefficients := by
      rw [calcCoefficients_congr _ _ false s tl r (hB false tl r)]
      exact hkl
    exact ⟨_, updateCoefficientsSimp_ok _ s tu tl r _ _ hcu hcl, rfl, rfl, rfl, rfl⟩

/-- The concrete simplified state `sstW` is consistent for `s = 1/2` with
zero tangent terms and zero radius term. -/
theorem sstW_consistent : SimpConsistent sstW (1/2) 0 0 0 :=
  ⟨by norm_num [sstW, stPW, pW], by norm_num [sstW, stPW, pW],
   by norm_num [sstW, stPW, pW], by norm_num [sstW, stPW, pW],
   calcCoefficients_pW_true, calcCoefficients_pW_false⟩

/-- Witness for C7: `stPW` (plain) and `sstW` (simplified, consistent)
with a `num_points` write of `100`. -/
theorem num_points_only_resamples_witness :
    (50 ≤ 100 ∧ 100 ≤ 1000 ∧ SimpConsistent sstW (1/2) 0 0 0) ∧
    writeNumPoints stPW 100 = WriteOutcome.ok
      { stPW with
          params := { stPW.params with num_points := 100 },
          coordinates := calcCoordinates stPW.upper_coefficients stPW.lower_coefficients 100 } ∧
    (∃ sst2 : SimpState, writeNumPointsSimp sstW 100 (1/2) 0 0 0 = WriteOutcome.ok sst2 ∧
      sst2.base.upper_coefficients = sstW.base.upper_coefficients ∧
      sst2.base.lower_coefficients = sstW.base.lower_coefficients ∧
      sst2.base.params.num_points = 100 ∧
      sst2.base.coordinates =
        calcCoordinates sstW.base.upper_coefficients sstW.base.lower_coefficients 100) :=
  ⟨⟨by norm_num, by norm_num, sstW_consistent⟩,
   num_points_only_resamples.1 stPW 100 (by norm_num) (by norm_num),
   num_points_only_resamples.2 sstW (1/2) 0 0 0 100 (by norm_num) (by norm_num) sstW_consistent⟩

/-- C9: on a `SimplifiedParsecAirfoil`, an in-bounds direct write to
`upper_x`, `lower_x`, `upper_z` or `lower_z` commits the parameter but
triggers no recomputation: the coefficient tuples and the coordinates keep
their previous values whatever the written value, so stale geometry stays
observable until an observed parameter is written. -/
theorem simplified_direct_writes_no_recompute (sst : SimpState) (v : ℚ) :
    (((writeUpperXSimp sst v).stateOf).base.upper_coefficients = sst.base.upper_coefficients ∧
     ((writeUpperXSimp sst v).stateOf).base.lower_coefficients = sst.base.lower_coefficients ∧
     ((writeUpperXSimp sst v).stateOf).base.coordinates = sst.base.coordinates) ∧
    (((writeLowerXSimp sst v).stateOf).base.upper_coefficients = sst.base.upper_coefficients ∧
     ((writeLowerXSimp sst v).stateOf).base.lower_coefficients = sst.base.lower_coefficients ∧
     ((writeLowerXSimp sst v).stateOf).base.coordinates = sst.base.coordinates) ∧
    (((writeUpperZSimp sst v).stateOf).base.upper_coefficients = sst.base.upper_coefficients ∧
     ((writeUpperZSimp sst v).stateOf).base.lower_coefficients = sst.base.lower_coefficients ∧
     ((writeUpperZSimp sst v).stateOf).base.coordinates = sst.base.coordinates) ∧
    (((writeLowerZSimp sst v).stateOf).base.upper_coefficients = sst.base.upper_coefficients ∧
     ((writeLowerZSimp sst v).stateOf).base.lower_coefficients = sst.base.lower_coefficients ∧
     ((writeLowerZSimp sst v).stateOf).base.coordinates = sst.base.coordinates) ∧
    (1/100 ≤ v → v ≤ 99/100 →
      writeUpperXSimp sst v = WriteOutcome.ok
        { sst with base := { sst.base with params := { sst.base.params with upper_x := v } } } ∧
      writeLowerXSimp sst v = WriteOutcome.ok
        { sst with base := { sst.base with params := { sst.base.params with lower_x := v } } }) ∧
    (-1 ≤ v → v ≤ 1 →
      writeUpperZSimp sst v = WriteOutcome.ok
        { sst with base := { sst.base with params := { sst.base.params with upper_z := v } } } ∧
      writeLowerZSimp sst v = WriteOutcome.ok
        { sst with base := { sst.base with params := { sst.base.params with lower_z := v } } }) := by
  refine ⟨?_, ?_, ?_, ?_, fun h1 h2 => ⟨?_, ?_⟩, fun h1 h2 => ⟨?_, ?_⟩⟩
  · unfold writeUpperXSimp
    split <;> exact ⟨rfl, rfl, rfl⟩
  · unfold writeLowerXSimp
    split <;> exact ⟨rfl, rfl, rfl⟩
  · unfold writeUpperZSimp
    split <;> exact ⟨rfl, rfl, rfl⟩
  · unfold writeLowerZSimp
    split <;> exact ⟨rfl, rfl, rfl⟩
  · unfold writeUpperXSimp
    rw [if_pos ⟨h1, h2⟩]
  · unfold writeLowerXSimp
    rw [if_pos ⟨h1, h2⟩]
  · unfold writeUpperZSimp
    rw [if_pos ⟨h1, h2⟩]
  · unfold writeLowerZSimp
    rw [if_pos ⟨h1, h2⟩]

/-- Witness for C9 at `sstW` with `v = 1/2` (in bounds for all four
fields). -/
theorem simplified_direct_writes_no_recompute_witness :
    ((1 : ℚ)/100 ≤ 1/2 ∧ (1/2 : ℚ) ≤ 99/100 ∧ (-1 : ℚ) ≤ 1/2 ∧ (1/2 : ℚ) ≤ 1) ∧
    ((writeUpperZSimp sstW (1/2)).stateOf).base.upper_coefficients = sstW.base.upper_coefficients ∧
    ((writeUpperZSimp sstW (1/2)).stateOf).base.coordinates = sstW.base.coordinates ∧
    writeUpperZSimp sstW (1/2) = WriteOutcome.ok
      { sstW with base := { sstW.base with params := { sstW.base.params with upper_z := 1/2 } } } ∧
    writeUpperXSimp sstW (1/2) = WriteOutcome.ok
      { sstW with base := { sstW.base with params := { sstW.base.params with upper_x := 1/2 } } } :=
  ⟨⟨by norm_num, by norm_num, by norm_num, by norm_num⟩,
   (simplified_direct_writes_no_recompute sstW (1/2)).2.2.1.1,
   (simplified_direct_writes_no_recompute sstW (1/2)).2.2.1.2.2,
   ((simplified_direct_writes_no_recompute sstW (1/2)).2.2.2.2.2 (by norm_num) (by norm_num)).1,
   ((simplified_direct_writes_no_recompute sstW (1/2)).2.2.2.2.1 (by norm_num) (by norm_num)).1⟩
